import Mathlib

/-!
Shallow embedding of the nof0 template core: the function library
(`pkg/template/funcs.go`), the Jet engine wrapper (`pkg/template/jet.go`),
and the reflection-based schema extractor / documentation generator
(`pkg/template/doc.go`, `pkg/template/types.go`).

Go `float64` values are modelled as rationals; machine strings as Lean
`String`; Go interface values as an explicit sum type where interface
dynamics matter.
-/

namespace Nof0

/-! ## Function library (`funcs.go`) -/

/-- The value scaled to whole cents: `⌊v * 100 + 1/2⌋`, rounding
half-away-from-zero on the non-negative range.  The concrete inputs used in
this development are exact at two decimals, so no rounding ambiguity
arises. -/
def centsOf (v : ℚ) : ℤ := ⌊v * 100 + 1/2⌋

/-- Two decimal digits, left-padded with a zero. -/
def digits2 (n : ℕ) : String :=
  if n < 10 then "0" ++ toString n else toString n

/-- Go `fmt.Sprintf("%.2f", v)` for a non-negative value: fixed-point with
two decimal digits. -/
def fmt2ofNonneg (v : ℚ) : String :=
  let n : ℕ := (centsOf v).toNat
  toString (n / 100) ++ "." ++ digits2 (n % 100)

/-- Go `fmt.Sprintf("%.2f", v)`, sign handled as in Go's fixed-point
formatting (minus sign prepended to the magnitude). -/
def formatFixed2 (v : ℚ) : String :=
  if v < 0 then "-" ++ fmt2ofNonneg (-v) else fmt2ofNonneg v

/-- Function `FormatCurrency` from `funcs.go`: `$%.2fM` for values ≥ 1e6, `$%.2fK`
for values ≥ 1e3, otherwise `$%.2f`. -/
def FormatCurrency (value : ℚ) : String :=
  if 1000000 ≤ value then "$" ++ formatFixed2 (value / 1000000) ++ "M"
  else if 1000 ≤ value then "$" ++ formatFixed2 (value / 1000) ++ "K"
  else "$" ++ formatFixed2 value

/-- A Go `interface{}` value, restricted to the dynamic types the
`Default` helper in `funcs.go` inspects. -/
inductive GoValue where
  | str (s : String)
  | int (n : ℤ)
  | int64 (n : ℤ)
  | float64 (q : ℚ)
  | bool (b : Bool)
  | nil
deriving DecidableEq, Repr

/-- Go interface equality `v == 0` where `v : interface{}`: the untyped
constant `0` takes its default type `int`, so the comparison is true only
when the dynamic type is `int` and the value is `0`.  An `int64` or
`float64` zero compares unequal because the dynamic types differ. -/
def ifaceEqIntZero : GoValue → Bool
  | .int 0 => true
  | _ => false

/-- Function `Default` from `funcs.go`.  The `switch value.(type)` is mirrored arm
for arm; in the combined arm `case int, int64, float64:` the Go variable
`v` has static type `interface{}`, so its test `v == 0` is the interface
comparison `ifaceEqIntZero`. -/
def Default (defaultValue value : GoValue) : GoValue :=
  match value with
  | .str s => if s = "" then defaultValue else value
  | .int _ => if ifaceEqIntZero value then defaultValue else value
  | .int64 _ => if ifaceEqIntZero value then defaultValue else value
  | .float64 _ => if ifaceEqIntZero value then defaultValue else value
  | .bool b => if !b then defaultValue else value
  | .nil => defaultValue

/-! ## Schema extractor (`doc.go`) -/

/-- A reflected struct field: identifier, the textual name of its declared
type (`field.Type.String()`), and its struct-tag, modelled as the key/value
pairs of the tag string. -/
structure StructField where
  name : String
  typeName : String
  tags : List (String × String)
deriving DecidableEq, Repr

/-- Go `reflect.StructTag.Get(key)`: the value for `key`, or `""` when the
tag has no entry for `key` (absent and explicitly-empty tags are
indistinguishable through `Get`). -/
def tagGet (f : StructField) (key : String) : String :=
  match f.tags.lookup key with
  | some v => v
  | none => ""

/-- Go `field.IsExported()`: the field identifier starts with an upper-case
letter. -/
def isExported (f : StructField) : Bool :=
  match f.name.data with
  | [] => false
  | c :: _ => c.isUpper

/-- The first comma-delimited segment of a character list: `parts[0]` of Go
`strings.Split(tag, ",")`. -/
def firstSeg : List Char → List Char
  | [] => []
  | c :: rest => if c = ',' then [] else c :: firstSeg rest

/-- Function `extractJSONName` from `doc.go`: `""` when `Tag.Get("json")` is empty,
otherwise the first comma-delimited segment of the tag
(`strings.Split(tag, ",")[0]`). -/
def extractJSONName (f : StructField) : String :=
  let tag := tagGet f "json"
  if tag = "" then "" else String.mk (firstSeg tag.data)

/-- Function `extractFieldDoc` from `doc.go`: the `doc` tag if non-empty, else the
`description` tag if non-empty, else `""`. -/
def extractFieldDoc (f : StructField) : String :=
  if tagGet f "doc" ≠ "" then tagGet f "doc"
  else if tagGet f "description" ≠ "" then tagGet f "description"
  else ""

/-- Function `extractExample` from `doc.go`: the `example` tag if non-empty, else
`""` (the Go function returns `interface{}` but only ever a string). -/
def extractExample (f : StructField) : String :=
  if tagGet f "example" ≠ "" then tagGet f "example" else ""

/-- Tests whether `needle` occurs at the head of `hay`. -/
def leadsWith : List Char → List Char → Bool
  | _, [] => true
  | [], _ :: _ => false
  | a :: as, b :: bs => (a = b) && leadsWith as bs

/-- Go `strings.Contains(hay, needle)` over character lists. -/
def hasSub : List Char → List Char → Bool
  | [], needle => leadsWith [] needle
  | a :: t, needle => leadsWith (a :: t) needle || hasSub t needle

/-- Go `strings.Contains` on strings. -/
def strContains (hay needle : String) : Bool :=
  hasSub hay.data needle.data

/-- Function `isRequired` from `doc.go`:
`strings.Contains(field.Tag.Get("schema"), "required")`. -/
def isRequired (f : StructField) : Bool :=
  strContains (tagGet f "schema") "required"

/-- One extracted field descriptor (`FieldDoc` in `types.go`; the Go field
`Type` is `TypeName` here because `Type` is reserved in Lean). -/
structure FieldDoc where
  Name : String
  JSONName : String
  TypeName : String
  Description : String
  Example : String
  Required : Bool
deriving DecidableEq, Repr

/-- The per-field extraction performed by the loop body of `Generate`. -/
def mkFieldDoc (f : StructField) : FieldDoc :=
  { Name := f.name
    JSONName := extractJSONName f
    TypeName := f.typeName
    Description := extractFieldDoc f
    Example := extractExample f
    Required := isRequired f }

/-- Structure `TypeDoc` from `types.go`. -/
structure TypeDoc where
  Name : String
  Description : String
  Fields : List FieldDoc
deriving DecidableEq, Repr

/-- A reflected Go type, restricted to the kinds `Generate` distinguishes:
structs, pointers, and representative non-struct kinds. -/
inductive GoType where
  | structT (name : String) (fields : List StructField)
  | ptr (elem : GoType)
  | intT
  | float64T
  | stringT
  | sliceT (elem : GoType)
  | boolT
deriving DecidableEq, Repr

/-- Go `reflect.Kind.String()` for the kinds above. -/
def kindName : GoType → String
  | .structT _ _ => "struct"
  | .ptr _ => "ptr"
  | .intT => "int"
  | .float64T => "float64"
  | .stringT => "string"
  | .sliceT _ => "slice"
  | .boolT => "bool"

/-- One level of pointer indirection, as in `Generate`'s single
`if typ.Kind() == reflect.Ptr { typ = typ.Elem() }`. -/
def derefOnce : GoType → GoType
  | .ptr e => e
  | t => t

/-- Whether `derefOnce` lands on a struct, i.e. whether `Generate` reaches
its field loop. -/
def isStructAfterDeref (t : GoType) : Bool :=
  match derefOnce t with
  | .structT _ _ => true
  | _ => false

/-- The outcome of `Generate`: a manifest, a returned error, or a runtime
panic. -/
inductive GenResult where
  | ok (doc : TypeDoc)
  | err (msg : String)
  | panicked
deriving DecidableEq, Repr

/-- Function `Generate` from `doc.go`.  The input is the dynamic type of the
`interface{}` argument; `none` is the untyped `nil` interface, for which
`reflect.TypeOf` returns a nil `reflect.Type` and the subsequent
`typ.Kind()` call dereferences nil and panics.  `extractTypeDoc` always
returns `""` in the source, so `Description` is `""`.  The field loop
appends one `FieldDoc` per exported field in declaration order, skipping
unexported fields, which is expressed as `filter` then `map`. -/
def Generate (v : Option GoType) : GenResult :=
  match v with
  | none => .panicked
  | some t =>
    match derefOnce t with
    | .structT name fields =>
        .ok { Name := name
              Description := ""
              Fields := (fields.filter fun f => isExported f).map mkFieldDoc }
    | other => .err ("expected struct, got " ++ kindName other)

/-! ## Markdown exporter (`doc.go`, `ExportMarkdown`) -/

/-- Function `formatExample` from `doc.go`, restricted to the string examples
`extractExample` produces: the empty string maps to the empty string,
anything else is returned verbatim. -/
def formatExample (e : String) : String :=
  if e = "" then "" else e

/-- The templateVar cell of a row: the Name interpolation, overridden with
the two-variable form when the JSON name is neither empty nor
`"-"`. -/
def mdTemplateVar (f : FieldDoc) : String :=
  if f.JSONName ≠ "" ∧ f.JSONName ≠ "-" then
    "\x7b\x7b." ++ f.Name ++ "\x7d\x7d or \x7b\x7b." ++ f.JSONName ++ "\x7d\x7d"
  else
    "\x7b\x7b." ++ f.Name ++ "\x7d\x7d"

/-- One table row of `ExportMarkdown`, exactly the `fmt.Sprintf` of the
loop body. -/
def mdRow (f : FieldDoc) : String :=
  "| " ++ f.Name ++ " | " ++ f.TypeName ++ " | `" ++ mdTemplateVar f ++ "` | "
    ++ (if f.Required then "✓ " else "") ++ f.Description ++ " | `"
    ++ formatExample f.Example ++ "` |\n"

/-- The table header line written before the rows. -/
def mdHeaderRow : String := "| Field | Type | Template Variable | Description | Example |\n"

/-- The table separator line written before the rows. -/
def mdSepRow : String := "|-------|------|-------------------|-------------|----------|\n"

/-- Function `ExportMarkdown` from `doc.go` (the Go version also returns an error,
which is always nil): title, optional description paragraph, table header,
then one row per field in order. -/
def ExportMarkdown (doc : TypeDoc) : String :=
  "# " ++ doc.Name ++ "\n\n"
    ++ (if doc.Description ≠ "" then doc.Description ++ "\n\n" else "")
    ++ mdHeaderRow ++ mdSepRow
    ++ String.join (doc.Fields.map mdRow)

/-- Everything `ExportMarkdown` writes before the first table row. -/
def mdPreamble (doc : TypeDoc) : String :=
  "# " ++ doc.Name ++ "\n\n"
    ++ (if doc.Description ≠ "" then doc.Description ++ "\n\n" else "")
    ++ mdHeaderRow ++ mdSepRow

/-! ## Jet engine wrapper (`jet.go`)

The compiled-template cache and the loader live in the external
`CloudyKit/jet` library (`jet.Set`), so their behavior is modelled from the
spec (§3, §4.1); the repository's own `JetEngine.Load`, `Render` and the
`Template` wrapper struct are embedded from `jet.go`.  Heap identity of
Go pointers is made observable through explicit allocation ids drawn from a
per-engine counter; filesystem reads are recorded in a log so that "without
re-reading the source" is a statement about the log. -/

/-- A compiled `jet.Template` (the opaque compiled program), with its
allocation identity. -/
structure CompiledProgram where
  id : ℕ
  path : String
  source : String
deriving DecidableEq, Repr

/-- Structure `Template` from `types.go`: the wrapper struct `Load` allocates around
the compiled program.  `jet` is a nil-able pointer; `wrapperId` is the
allocation identity of the wrapper itself. -/
structure Template where
  Name : String
  Path : String
  jet : Option CompiledProgram
  wrapperId : ℕ
deriving DecidableEq, Repr

/-- Structure `JetEngine` from `jet.go` together with the state of its embedded
`jet.Set`: the development flag, the compiled-template cache, the function
registry (callables modelled as opaque numeric tokens), the allocation
counter, and the log of filesystem reads. -/
structure JetEngine where
  templateDir : String
  devMode : Bool
  cache : List (String × CompiledProgram)
  funcs : List (String × ℕ)
  nextId : ℕ
  readLog : List String
deriving DecidableEq, Repr

/-- Modelled from the spec: `jet.Set.GetTemplate` of the external
`CloudyKit/jet` library (§4.1): in non-development mode a cache hit returns
the stored compiled template without touching the source; a miss reads the
source bytes, compiles, stores and returns the result; in development mode
every call re-reads and re-compiles, ignoring the cached entry.  `fs` is
the file-backed source (`jet.NewOSFileSystemLoader`). -/
def getTemplate (fs : String → Option String) (e : JetEngine) (path : String) :
    Except String CompiledProgram × JetEngine :=
  match (if e.devMode then none else e.cache.lookup path) with
  | some prog => (.ok prog, e)
  | none =>
    match fs path with
    | none =>
        (.error ("template " ++ path ++ " could not be found"),
         { e with readLog := path :: e.readLog })
    | some src =>
        let prog : CompiledProgram := { id := e.nextId, path := path, source := src }
        (.ok prog,
         { e with
             cache := (path, prog) :: e.cache
             nextId := e.nextId + 1
             readLog := path :: e.readLog })

/-- Method `JetEngine.Load` from `jet.go`: delegates to `set.GetTemplate`, wraps
a failure with the path, and on success allocates a fresh `&Template{...}`
wrapper around the compiled program. -/
def Load (fs : String → Option String) (e : JetEngine) (path : String) :
    Except String Template × JetEngine :=
  match getTemplate fs e path with
  | (.error msg, e') =>
      (.error ("load template \"" ++ path ++ "\": " ++ msg), e')
  | (.ok prog, e') =>
      (.ok { Name := path, Path := path, jet := some prog, wrapperId := e'.nextId },
       { e' with nextId := e'.nextId + 1 })

/-- A caller-supplied data context (opaque to the engine). -/
structure DataCtx where
  entries : List (String × String)
deriving DecidableEq, Repr

/-- The type of the external jet executor (`jet.Template.Execute`),
modelled per the spec (§4.2) as a pure function of the compiled program,
the registry state at call time, and the context. -/
def JetExec : Type :=
  CompiledProgram → List (String × ℕ) → DataCtx → Except String String

/-- Method `JetEngine.Render` from `jet.go`: a nil `*Template` or a nil compiled
program yields the error `"invalid template"`; otherwise the compiled
program is executed against the context and a failure is wrapped with the
template name.  The engine state is returned explicitly to make the frame
claim statable. -/
def Render (exec : JetExec) (e : JetEngine) (tmpl : Option Template)
    (data : DataCtx) : Except String String × JetEngine :=
  match tmpl with
  | none => (.error "invalid template", e)
  | some t =>
    match t.jet with
    | none => (.error "invalid template", e)
    | some prog =>
      match exec prog e.funcs data with
      | .ok out => (.ok out, e)
      | .error msg =>
          (.error ("render template \"" ++ t.Name ++ "\": " ++ msg), e)

/-! ## Concrete fixtures used by counterexamples and witnesses -/

/-- A one-file filesystem: `t.jet` holds `Hello`. -/
def sampleFS : String → Option String :=
  fun p => if p = "t.jet" then some "Hello" else none

/-- A fresh engine in non-development mode. -/
def engNonDev : JetEngine :=
  { templateDir := "./templates", devMode := false, cache := [], funcs := []
    nextId := 0, readLog := [] }

/-- A fresh engine in development mode. -/
def engDev : JetEngine :=
  { templateDir := "./templates", devMode := true, cache := [], funcs := []
    nextId := 0, readLog := [] }

/-- The wrapper returned by the first `Load` of `t.jet` on `engNonDev`. -/
def tFirst : Template :=
  { Name := "t.jet", Path := "t.jet"
    jet := some { id := 0, path := "t.jet", source := "Hello" }, wrapperId := 1 }

/-- The wrapper returned by the second `Load` of `t.jet` on `engNonDev`. -/
def tSecond : Template :=
  { Name := "t.jet", Path := "t.jet"
    jet := some { id := 0, path := "t.jet", source := "Hello" }, wrapperId := 2 }

/-- The engine state after the first `Load` of `t.jet` on `engNonDev`. -/
def engNonDevAfter : JetEngine :=
  { templateDir := "./templates", devMode := false
    cache := [("t.jet", { id := 0, path := "t.jet", source := "Hello" })]
    funcs := [], nextId := 2, readLog := ["t.jet"] }

/-- The wrapper returned by the first `Load` of `t.jet` on `engDev`. -/
def tDevFirst : Template :=
  { Name := "t.jet", Path := "t.jet"
    jet := some { id := 0, path := "t.jet", source := "Hello" }, wrapperId := 1 }

/-- The engine state after the first `Load` of `t.jet` on `engDev`. -/
def engDevAfter : JetEngine :=
  { templateDir := "./templates", devMode := true
    cache := [("t.jet", { id := 0, path := "t.jet", source := "Hello" })]
    funcs := [], nextId := 2, readLog := ["t.jet"] }

/-- A wrapper whose compiled program is nil (Go: `&Template{}` with `jet`
left nil). -/
def tNilProg : Template :=
  { Name := "broken", Path := "broken", jet := none, wrapperId := 7 }

/-- A trivial executor. -/
def execTriv : JetExec := fun _ _ _ => .ok ""

/-- An empty data context. -/
def emptyCtx : DataCtx := { entries := [] }

/-- A field whose json tag is present but begins with a comma. -/
def fCommaTag : StructField :=
  { name := "Amount", typeName := "float64", tags := [("json", ",omitempty")] }

/-- Exported field with json, doc and schema tags. -/
def fAlpha : StructField :=
  { name := "Alpha", typeName := "string"
    tags := [("json", "alpha"), ("doc", "First"), ("schema", "alpha,required")] }

/-- Unexported field (lower-case identifier). -/
def fbeta : StructField :=
  { name := "beta", typeName := "int", tags := [("json", "beta")] }

/-- Exported field with a comma-suffixed json tag. -/
def fGamma : StructField :=
  { name := "Gamma", typeName := "float64", tags := [("json", "gamma,omitempty")] }

/-- Exported field with description and example tags and no json tag. -/
def fDelta : StructField :=
  { name := "Delta", typeName := "bool"
    tags := [("description", "Flag"), ("example", "true")] }

/-- A record with three exported fields and one unexported field. -/
def recFields : List StructField := [fAlpha, fbeta, fGamma, fDelta]

/-- The manifest `Generate` produces for `recFields`. -/
def docRec : TypeDoc :=
  { Name := "Rec", Description := ""
    Fields :=
      [ { Name := "Alpha", JSONName := "alpha", TypeName := "string"
          Description := "First", Example := "", Required := true }
      , { Name := "Gamma", JSONName := "gamma", TypeName := "float64"
          Description := "", Example := "", Required := false }
      , { Name := "Delta", JSONName := "", TypeName := "bool"
          Description := "Flag", Example := "true", Required := false } ] }

/-! ## Helper lemmas -/

theorem leadsWith_iff (l n : List Char) : leadsWith l n = true ↔ n <+: l := by
  induction l generalizing n with
  | nil =>
    cases n with
    | nil => simp [leadsWith]
    | cons b bs => simp [leadsWith]
  | cons a as ih =>
    cases n with
    | nil => simp [leadsWith]
    | cons b bs =>
      simp only [leadsWith, Bool.and_eq_true, decide_eq_true_eq, ih,
        List.cons_prefix_cons]
      constructor
      · rintro ⟨h1, h2⟩
        exact ⟨h1.symm, h2⟩
      · rintro ⟨h1, h2⟩
        exact ⟨h1.symm, h2⟩

theorem hasSub_iff (l n : List Char) : hasSub l n = true ↔ n <:+: l := by
  induction l with
  | nil =>
    simp only [hasSub, leadsWith_iff, List.prefix_nil, List.infix_nil]
  | cons a t ih =>
    simp only [hasSub, Bool.or_eq_true, leadsWith_iff, ih, List.infix_cons_iff]

theorem strAppend_assoc (a b c : String) : a ++ b ++ c = a ++ (b ++ c) := by
  cases a with
  | mk as =>
    cases b with
    | mk bs =>
      cases c with
      | mk cs =>
        show String.mk (as ++ bs ++ cs) = String.mk (as ++ (bs ++ cs))
        rw [List.append_assoc]

/-! ## Claims C1 and C7 -/

/-- C7: `FormatCurrency(v)` returns `"$" + v/1e6` to 2 decimals `+ "M"` when
`v ≥ 1e6`, else `"$" + v/1e3` to 2 decimals `+ "K"` when `v ≥ 1e3`, else
`"$" + v` to 2 decimals; in particular `FormatCurrency(1500000) = "$1.50M"`,
`FormatCurrency(5500) = "$5.50K"`, `FormatCurrency(99.99) = "$99.99"`. -/
theorem c7_formatCurrency_spec :
    (∀ v : ℚ, FormatCurrency v =
      (if 1000000 ≤ v then "$" ++ formatFixed2 (v / 1000000) ++ "M"
       else if 1000 ≤ v then "$" ++ formatFixed2 (v / 1000) ++ "K"
       else "$" ++ formatFixed2 v))
    ∧ FormatCurrency 1500000 = "$1.50M"
    ∧ FormatCurrency 5500 = "$5.50K"
    ∧ FormatCurrency (9999/100) = "$99.99" := by
  refine ⟨fun v => rfl, ?_, ?_, ?_⟩
  · have h1 : (1000000 : ℚ) ≤ 1500000 := by norm_num
    have hv : (1500000 : ℚ) / 1000000 = 3/2 := by norm_num
    have hneg : ¬ (3/2 : ℚ) < 0 := by norm_num
    have hc : centsOf (3/2) = 150 := by
      unfold centsOf
      rw [Int.floor_eq_iff]
      norm_num
    simp only [FormatCurrency, if_pos h1, hv, formatFixed2, if_neg hneg, fmt2ofNonneg, hc]
    decide
  · have h1 : ¬ (1000000 : ℚ) ≤ 5500 := by norm_num
    have h2 : (1000 : ℚ) ≤ 5500 := by norm_num
    have hv : (5500 : ℚ) / 1000 = 11/2 := by norm_num
    have hneg : ¬ (11/2 : ℚ) < 0 := by norm_num
    have hc : centsOf (11/2) = 550 := by
      unfold centsOf
      rw [Int.floor_eq_iff]
      norm_num
    simp only [FormatCurrency, if_neg h1, if_pos h2, hv, formatFixed2, if_neg hneg,
      fmt2ofNonneg, hc]
    decide
  · have h1 : ¬ (1000000 : ℚ) ≤ 9999/100 := by norm_num
    have h2 : ¬ (1000 : ℚ) ≤ 9999/100 := by norm_num
    have hneg : ¬ (9999/100 : ℚ) < 0 := by norm_num
    have hc : centsOf (9999/100) = 9999 := by
      unfold centsOf
      rw [Int.floor_eq_iff]
      norm_num
    simp only [FormatCurrency, if_neg h1, if_neg h2, formatFixed2, if_neg hneg,
      fmt2ofNonneg, hc]
    decide

/-- C1: the claim states `Default(d, v)` returns `d` for the zero value of
any numeric kind, including `float64` and `int64`.  The code's combined
`switch` arm `case int, int64, float64:` leaves `v` typed `interface{}`, so
its `v == 0` test compares against the untyped constant `0` at type `int`
and never fires for an `int64` or `float64` zero: `Default(d, float64(0))`
and `Default(d, int64(0))` return the zero unchanged, contradicting the
function's own documentation ("returns the default value if the first value
is zero/empty").  Only `int(0)`, the empty string, `false` and `nil` take
the default. -/
theorem c1_default_numeric_zero_eval :
    Default (.str "fallback") (.float64 0) = .float64 0
    ∧ Default (.str "fallback") (.int64 0) = .int64 0
    ∧ Default (.str "fallback") (.int 0) = .str "fallback"
    ∧ Default (.str "fallback") (.str "") = .str "fallback"
    ∧ Default (.str "fallback") (.bool false) = .str "fallback"
    ∧ Default (.str "fallback") .nil = .str "fallback"
    ∧ Default (.str "fallback") (.float64 0) ≠ .str "fallback" := by
  refine ⟨rfl, rfl, rfl, rfl, rfl, rfl, ?_⟩
  decide

/-! ## Claims C2 to C6: the schema extractor and the Markdown exporter -/

/-- C2 counterexample: a field whose json tag is `",omitempty"` has a
wire-tag present, yet its extracted JSONName is the empty string — refuting
both "empty exactly when no wire-tag is present" and "whenever a wire-tag
is present ... non-empty". -/
theorem c2_counterexample :
    tagGet fCommaTag "json" = ",omitempty" ∧ extractJSONName fCommaTag = "" := by
  constructor
  · rfl
  · rfl

/-- C2 (amended): JSONName is empty when no wire-tag is present; when a
wire-tag is present, JSONName is the first comma-delimited segment of the
tag, and that segment is empty exactly when the tag begins with a comma —
so a present wire-tag can still yield an empty JSONName. -/
theorem c2_amended_thm :
    (∀ f : StructField, tagGet f "json" = "" → extractJSONName f = "")
    ∧ (∀ f : StructField, tagGet f "json" ≠ "" →
        extractJSONName f = String.mk (firstSeg (tagGet f "json").data)
        ∧ (extractJSONName f = "" ↔ (tagGet f "json").data.head? = some ',')) := by
  constructor
  · intro f h
    simp [extractJSONName, h]
  · intro f h
    refine ⟨by simp [extractJSONName, h], ?_⟩
    simp only [extractJSONName, if_neg h]
    have hd : (tagGet f "json").data ≠ [] := by
      intro hnil
      exact h (String.ext hnil)
    cases hl : (tagGet f "json").data with
    | nil => exact absurd hl hd
    | cons c rest =>
      by_cases hc : c = ','
      · subst hc
        simp [firstSeg]
      · simp [firstSeg, hc, String.ext_iff]

/-- C2 witness: a field with tag `json:"gamma,omitempty"` instantiates the
amended theorem: the extracted JSONName is the first segment `gamma`. -/
theorem c2_witness :
    (extractJSONName fGamma = String.mk (firstSeg (tagGet fGamma "json").data)
      ∧ (extractJSONName fGamma = "" ↔ (tagGet fGamma "json").data.head? = some ','))
    ∧ extractJSONName fDelta = "" :=
  ⟨c2_amended_thm.2 fGamma (by decide), c2_amended_thm.1 fDelta rfl⟩

/-- C3 counterexample: `Generate(nil)` does not return an error result — it
panics, because `reflect.TypeOf(nil)` is a nil `reflect.Type` and the
method call `typ.Kind()` dereferences it. -/
theorem c3_counterexample : Generate none = GenResult.panicked := rfl

/-- C3 (amended): for every non-nil input whose one-step-dereferenced type
is not a struct — numbers, strings, slices, pointers to non-structs —
`Generate` returns an error naming the offending kind and produces no
manifest; the untyped nil input instead panics. -/
theorem c3_amended_thm :
    (∀ t : GoType, isStructAfterDeref t = false →
        Generate (some t) = .err ("expected struct, got " ++ kindName (derefOnce t)))
    ∧ Generate none = GenResult.panicked := by
  constructor
  · intro t h
    cases hd : derefOnce t with
    | structT n fs => rw [isStructAfterDeref, hd] at h; simp at h
    | ptr e => simp [Generate, hd]
    | intT => simp [Generate, hd]
    | float64T => simp [Generate, hd]
    | stringT => simp [Generate, hd]
    | sliceT e => simp [Generate, hd]
    | boolT => simp [Generate, hd]
  · rfl

/-- C3 witness: an `int` input is rejected with the error
`expected struct, got int`. -/
theorem c3_witness :
    isStructAfterDeref GoType.intT = false
    ∧ Generate (some GoType.intT) = .err "expected struct, got int" := by
  refine ⟨rfl, ?_⟩
  have h := c3_amended_thm.1 GoType.intT rfl
  exact h

/-- C4: `Generate` returns exactly one FieldDescriptor per exported field,
in declaration order, and none for unexported fields; in particular the
record `Rec` with exported `Alpha`, `Gamma`, `Delta` and unexported `beta`
yields exactly 3 descriptors, in declaration order. -/
theorem c4_thm :
    (∀ (name : String) (fields : List StructField), ∃ doc : TypeDoc,
        Generate (some (.structT name fields)) = .ok doc
        ∧ doc.Name = name
        ∧ doc.Fields = (fields.filter fun f => isExported f).map mkFieldDoc
        ∧ doc.Fields.map FieldDoc.Name
            = (fields.filter fun f => isExported f).map StructField.name)
    ∧ Generate (some (.structT "Rec" recFields)) = .ok docRec
    ∧ (docRec.Fields.map FieldDoc.Name = ["Alpha", "Gamma", "Delta"]
        ∧ docRec.Fields.length = 3) := by
  refine ⟨?_, by decide, by decide⟩
  intro name fields
  refine ⟨_, rfl, rfl, rfl, ?_⟩
  rw [List.map_map]
  rfl

/-- C5: `Required` is true iff the raw text of the schema tag contains the
substring `required` (literal substring containment over characters), and a
field without a schema tag is never required. -/
theorem c5_thm :
    (∀ f : StructField,
        isRequired f = true ↔ "required".data <:+: (tagGet f "schema").data)
    ∧ (∀ f : StructField, f.tags.lookup "schema" = none → isRequired f = false) := by
  constructor
  · intro f
    simp only [isRequired, strContains, hasSub_iff]
  · intro f h
    simp only [isRequired, strContains, tagGet, h]
    decide

/-- C5 witness: a field with no tags is not required; `fAlpha` with tag
`schema:"alpha,required"` is required. -/
theorem c5_witness :
    isRequired { name := "Plain", typeName := "int", tags := [] } = false
    ∧ isRequired fAlpha = true := by
  constructor
  · exact c5_thm.2 { name := "Plain", typeName := "int", tags := [] } rfl
  · exact (c5_thm.1 fAlpha).2 (by decide)

/-- C6: for every manifest, `ExportMarkdown` output starts with `"# "`
followed by the type name, and the text after the fixed preamble is the
concatenation of exactly one table row per FieldDescriptor, in the order
`Generate` produced them. -/
theorem c6_thm :
    ∀ doc : TypeDoc,
      (∃ rest, ExportMarkdown doc = "# " ++ doc.Name ++ rest)
      ∧ ExportMarkdown doc = mdPreamble doc ++ String.join (doc.Fields.map mdRow)
      ∧ (doc.Fields.map mdRow).length = doc.Fields.length := by
  intro doc
  refine ⟨⟨"\n\n" ++ (if doc.Description ≠ "" then doc.Description ++ "\n\n" else "")
      ++ mdHeaderRow ++ mdSepRow ++ String.join (doc.Fields.map mdRow), ?_⟩, ?_, ?_⟩
  · simp [ExportMarkdown, strAppend_assoc]
  · simp [ExportMarkdown, mdPreamble, strAppend_assoc]
  · simp

/-! ## Claims C8 to C10: the loader/cache and the executor -/

theorem getTemplate_hit {fs : String → Option String} {e : JetEngine}
    {path : String} {prog : CompiledProgram}
    (hdev : e.devMode = false) (hc : e.cache.lookup path = some prog) :
    getTemplate fs e path = (.ok prog, e) := by
  unfold getTemplate
  rw [hdev]
  simp only [Bool.false_eq_true, if_false]
  rw [hc]

theorem getTemplate_ok_nondev {fs : String → Option String} {e : JetEngine}
    {path : String} {prog : CompiledProgram} {e' : JetEngine}
    (hdev : e.devMode = false)
    (hg : getTemplate fs e path = (.ok prog, e')) :
    e'.devMode = false ∧ e'.cache.lookup path = some prog := by
  unfold getTemplate at hg
  rw [hdev] at hg
  simp only [Bool.false_eq_true, if_false] at hg
  cases hc : e.cache.lookup path with
  | some q =>
    rw [hc] at hg
    injection hg with h1 h2
    injection h1 with h1
    subst h1
    subst h2
    exact ⟨hdev, hc⟩
  | none =>
    rw [hc] at hg
    cases hf : fs path with
    | none =>
      rw [hf] at hg
      exact absurd hg (by simp)
    | some src =>
      rw [hf] at hg
      injection hg with h1 h2
      injection h1 with h1
      subst h1
      subst h2
      refine ⟨rfl, ?_⟩
      simp [List.lookup]

theorem load_ok_inv {fs : String → Option String} {e : JetEngine} {path : String}
    {t₁ : Template} {e₁ : JetEngine}
    (h : Load fs e path = (.ok t₁, e₁)) :
    ∃ prog e', getTemplate fs e path = (.ok prog, e')
      ∧ t₁ = { Name := path, Path := path, jet := some prog, wrapperId := e'.nextId }
      ∧ e₁ = { e' with nextId := e'.nextId + 1 } := by
  unfold Load at h
  cases hg : getTemplate fs e path with
  | mk r e' =>
    rw [hg] at h
    cases r with
    | error msg => exact absurd h (by simp)
    | ok prog =>
      injection h with h1 h2
      injection h1 with h1
      exact ⟨prog, e', rfl, h1.symm, h2.symm⟩

theorem load_dev_ok {fs : String → Option String} {e : JetEngine} {path src : String}
    (hdev : e.devMode = true) (hf : fs path = some src) :
    Load fs e path =
      (.ok { Name := path, Path := path
             jet := some { id := e.nextId, path := path, source := src }
             wrapperId := e.nextId + 1 },
       { e with cache := (path, { id := e.nextId, path := path, source := src }) :: e.cache
                nextId := e.nextId + 2
                readLog := path :: e.readLog }) := by
  unfold Load getTemplate
  rw [hdev, hf]
  rfl

theorem load_dev_err {fs : String → Option String} {e : JetEngine} {path : String}
    (hdev : e.devMode = true) (hf : fs path = none) :
    Load fs e path =
      (.error ("load template \"" ++ path ++ "\": "
          ++ ("template " ++ path ++ " could not be found")),
       { e with readLog := path :: e.readLog }) := by
  unfold Load getTemplate
  rw [hdev, hf]
  rfl

/-- C8 counterexample: in non-development mode, two `Load`s of the same
path return distinct `Template` instances — the wrapper is freshly
allocated on every call — even though the cached compiled program inside is
the same instance and the source is not re-read. -/
theorem c8_counterexample :
    Load sampleFS engNonDev "t.jet" = (.ok tFirst, engNonDevAfter)
    ∧ Load sampleFS engNonDevAfter "t.jet"
        = (.ok tSecond, { engNonDevAfter with nextId := 3 })
    ∧ tFirst ≠ tSecond
    ∧ tFirst.jet = tSecond.jet
    ∧ engNonDevAfter.readLog = ["t.jet"] := by
  refine ⟨rfl, rfl, ?_, rfl, rfl⟩
  decide

/-- C8 (amended): in non-development mode, a second `Load` of the same path
returns a freshly allocated wrapper whose compiled program is the same
instance as the first call's, with the same name and path, without
re-reading the source and without touching the cache; in development mode a
second `Load` re-reads the source and returns a distinct compiled program
even for unchanged content. -/
theorem c8_amended_thm :
    (∀ (fs : String → Option String) (e : JetEngine) (path : String)
        (t₁ : Template) (e₁ : JetEngine),
      e.devMode = false → Load fs e path = (.ok t₁, e₁) →
      ∃ t₂ e₂, Load fs e₁ path = (.ok t₂, e₂)
        ∧ t₂.jet = t₁.jet ∧ t₂.Name = t₁.Name ∧ t₂.Path = t₁.Path
        ∧ e₂.readLog = e₁.readLog ∧ e₂.cache = e₁.cache)
    ∧ (∀ (fs : String → Option String) (e : JetEngine) (path : String)
        (t₁ : Template) (e₁ : JetEngine),
      e.devMode = true → Load fs e path = (.ok t₁, e₁) →
      ∃ t₂ e₂, Load fs e₁ path = (.ok t₂, e₂)
        ∧ t₂.jet ≠ t₁.jet
        ∧ e₂.readLog = path :: e₁.readLog) := by
  constructor
  · intro fs e path t₁ e₁ hdev h
    obtain ⟨prog, e', hg, ht, he⟩ := load_ok_inv h
    obtain ⟨hdev', hc'⟩ := getTemplate_ok_nondev hdev hg
    have hdev₁ : e₁.devMode = false := by rw [he]; exact hdev'
    have hc₁ : e₁.cache.lookup path = some prog := by rw [he]; exact hc'
    have hg₂ : getTemplate fs e₁ path = (.ok prog, e₁) := getTemplate_hit hdev₁ hc₁
    refine ⟨{ Name := path, Path := path, jet := some prog, wrapperId := e₁.nextId },
      { e₁ with nextId := e₁.nextId + 1 }, ?_, ?_, ?_, ?_, rfl, rfl⟩
    · unfold Load
      rw [hg₂]
    · rw [ht]
    · rw [ht]
    · rw [ht]
  · intro fs e path t₁ e₁ hdev h
    cases hf : fs path with
    | none =>
      rw [load_dev_err hdev hf] at h
      exact absurd h (by simp)
    | some src =>
      rw [load_dev_ok hdev hf] at h
      injection h with h1 h2
      injection h1 with h1
      have hdev₁ : e₁.devMode = true := by rw [← h2]; exact hdev
      have hf₁ : fs path = some src := hf
      refine ⟨_, _, load_dev_ok hdev₁ hf₁, ?_, ?_⟩
      · rw [← h1]
        simp only [ne_eq, Option.some.injEq]
        intro hcp
        have hid := congrArg CompiledProgram.id hcp
        simp only at hid
        rw [← h2] at hid
        simp at hid
      · rw [← h2]

/-- C8 witness: both parts of the amended theorem instantiated on the
concrete one-file filesystem — a non-development engine that has loaded
`t.jet` once, and a development engine likewise. -/
theorem c8_witness :
    (∃ t₂ e₂, Load sampleFS engNonDevAfter "t.jet" = (.ok t₂, e₂)
      ∧ t₂.jet = tFirst.jet ∧ t₂.Name = tFirst.Name ∧ t₂.Path = tFirst.Path
      ∧ e₂.readLog = engNonDevAfter.readLog ∧ e₂.cache = engNonDevAfter.cache)
    ∧ (∃ t₂ e₂, Load sampleFS engDevAfter "t.jet" = (.ok t₂, e₂)
      ∧ t₂.jet ≠ tDevFirst.jet
      ∧ e₂.readLog = "t.jet" :: engDevAfter.readLog) := by
  constructor
  · exact c8_amended_thm.1 sampleFS engNonDev "t.jet" tFirst engNonDevAfter rfl rfl
  · exact c8_amended_thm.2 sampleFS engDev "t.jet" tDevFirst engDevAfter rfl rfl

/-- C9: `Render` mutates no engine state — for every executor, engine,
template argument and data context, the engine returned alongside the
result (output text or error) is the argument engine itself, so the
function registry and the compiled-template cache are unchanged. -/
theorem c9_thm :
    ∀ (exec : JetExec) (e : JetEngine) (tmpl : Option Template) (data : DataCtx),
      ((Render exec e tmpl data).2).funcs = e.funcs
      ∧ ((Render exec e tmpl data).2).cache = e.cache
      ∧ (Render exec e tmpl data).2 = e := by
  intro exec e tmpl data
  have h : (Render exec e tmpl data).2 = e := by
    cases tmpl with
    | none => rfl
    | some t =>
      simp only [Render]
      cases ht : t.jet with
      | none => rfl
      | some prog =>
        cases hx : exec prog e.funcs data with
        | ok out => simp [hx]
        | error msg => simp [hx]
  exact ⟨by rw [h], by rw [h], h⟩

/-- C10: `Render` on a nil template, or on a template whose compiled
program is nil, returns the bare error `invalid template` (no template
path) with no output text, for every executor, engine and data context. -/
theorem c10_thm :
    (∀ (exec : JetExec) (e : JetEngine) (data : DataCtx),
        Render exec e none data = (.error "invalid template", e))
    ∧ (∀ (exec : JetExec) (e : JetEngine) (data : DataCtx) (t : Template),
        t.jet = none → Render exec e (some t) data = (.error "invalid template", e)) := by
  constructor
  · intro exec e data
    rfl
  · intro exec e data t ht
    cases t with
    | mk n p j w =>
      cases j with
      | none => rfl
      | some prog => exact absurd ht (by simp)

/-- C10 witness: the trivial executor on a fresh engine, with the nil
template and with a wrapper whose compiled program is nil. -/
theorem c10_witness :
    Render execTriv engNonDev none emptyCtx = (.error "invalid template", engNonDev)
    ∧ Render execTriv engNonDev (some tNilProg) emptyCtx
        = (.error "invalid template", engNonDev) := by
  exact ⟨c10_thm.1 execTriv engNonDev emptyCtx,
    c10_thm.2 execTriv engNonDev emptyCtx tNilProg rfl⟩

end Nof0
